import Mathlib

/-!
Verification of the Canadian weather analytics pipeline.

Shallow embedding of the numeric core of the repository:
- src/ml-models/weather_anomaly_detector.py
- src/lambda-functions/weather-data-processor/lambda_function.py
- src/lambda-functions/weather-data-exporter/data_exporter.py

Numeric values are modelled as exact rationals (reals where a fractional
power occurs); Python dict access with a default is modelled by Option.getD,
and bare dict access by an Except-valued lookup.
-/

section Rounding

variable {α : Type} [LinearOrderedField α] [FloorRing α]
variable [DecidableRel ((· < ·) : α → α → Prop)]

/-- Python builtin round to zero decimals: round-half-to-even (banker rounding). -/
def bround (x : α) : ℤ :=
  if Int.fract x < 1 / 2 then ⌊x⌋
  else if 1 / 2 < Int.fract x then ⌊x⌋ + 1
  else if ⌊x⌋ % 2 = 0 then ⌊x⌋ else ⌊x⌋ + 1

/-- Python round(x, 1): scale by ten, round half to even, scale back. -/
def round1 (x : α) : α :=
  (bround (10 * x) : α) / 10

theorem bround_mem (x : α) : bround x = ⌊x⌋ ∨ bround x = ⌊x⌋ + 1 := by
  unfold bround
  split_ifs <;> simp

theorem bround_bounds (x : α) : x - 1 / 2 ≤ (bround x : α) ∧ (bround x : α) ≤ x + 1 / 2 := by
  have hfx : (⌊x⌋ : α) + Int.fract x = x := Int.floor_add_fract x
  have h0 : 0 ≤ Int.fract x := Int.fract_nonneg x
  have h1 : Int.fract x < 1 := Int.fract_lt_one x
  unfold bround
  split_ifs with a b c <;> constructor <;> push_cast <;> linarith

theorem round1_le (x : α) : round1 x ≤ x + 1 / 20 := by
  have h := (bround_bounds (10 * x)).2
  unfold round1
  rw [div_le_iff₀ (by norm_num : (0:α) < 10)]
  linarith

theorem le_round1 (x : α) : x - 1 / 20 ≤ round1 x := by
  have h := (bround_bounds (10 * x)).1
  unfold round1
  rw [le_div_iff₀ (by norm_num : (0:α) < 10)]
  linarith

theorem bround_ge_floor (x : α) : ⌊x⌋ ≤ bround x := by
  rcases bround_mem x with h | h <;> omega

theorem round1_nonneg {x : α} (hx : 0 ≤ x) : 0 ≤ round1 x := by
  have h1 : (0:ℤ) ≤ ⌊(10:α) * x⌋ := Int.floor_nonneg.2 (by positivity)
  have h2 : (0:ℤ) ≤ bround (10 * x) := le_trans h1 (bround_ge_floor _)
  unfold round1
  apply div_nonneg _ (by norm_num)
  exact_mod_cast h2

end Rounding

namespace WeatherAnomalyDetector

/-- Temperature outside realistic Canadian bounds (weather_anomaly_detector.py lines 7-11). -/
def is_anomalous_temperature (temp_celsius : ℚ) : Bool :=
  decide (temp_celsius < -50 ∨ temp_celsius > 45)

/-- Humidity outside the human-perceivable range (weather_anomaly_detector.py lines 13-17). -/
def is_anomalous_humidity (humidity_percent : ℚ) : Bool :=
  decide (humidity_percent < 0 ∨ humidity_percent > 100)

/-- Wind speed above typical storm speeds (weather_anomaly_detector.py lines 19-23). -/
def is_anomalous_wind_speed (wind_kph : ℚ) : Bool :=
  decide (wind_kph > 150)

/-- The three basic anomaly flags computed by detect_anomalies. -/
structure Anomalies where
  temperature_anomaly : Bool
  humidity_anomaly : Bool
  wind_anomaly : Bool
deriving DecidableEq

/-- Number of set flags, the Python sum(anomalies.values()). -/
def anomalies_count (a : Anomalies) : ℕ :=
  a.temperature_anomaly.toNat + a.humidity_anomaly.toNat + a.wind_anomaly.toNat

/-- Alert classification with early returns flattened into a nested conditional
(weather_anomaly_detector.py lines 25-47). -/
def classify_alert_category (temp humidity wind : ℚ) (anomalies : Anomalies) : String :=
  if anomalies.temperature_anomaly ∧ (temp < -50 ∨ temp < -30) then "cold_extreme"
  else if anomalies.temperature_anomaly ∧ (temp > 45 ∨ temp > 35) then "heat_extreme"
  else if anomalies.wind_anomaly ∧ wind > 100 then "wind_extreme"
  else if anomalies.humidity_anomaly then "humidity_extreme"
  else if anomalies_count anomalies > 1 then "severe_weather"
  else "moderate_alert"

/-- Temperature sub-score, 0 to 40 points (weather_anomaly_detector.py lines 54-69). -/
def temp_score (temp : ℚ) : ℚ :=
  if temp < -40 then 40
  else if temp < -30 then 30
  else if temp < -20 then 15
  else if temp > 40 then 35
  else if temp > 35 then 25
  else if temp > 30 then 15
  else max 0 (|temp - 22| / 22 * 10)

/-- Humidity sub-score, 0 to 25 points (weather_anomaly_detector.py lines 71-77). -/
def humidity_score (humidity : ℚ) : ℚ :=
  if humidity < 10 ∨ humidity > 95 then 25
  else if humidity < 20 ∨ humidity > 85 then 15
  else max 0 (|humidity - 50| / 50 * 10)

/-- Wind sub-score (weather_anomaly_detector.py lines 79-87); note the final
branch has no lower clamp. -/
def wind_score (wind : ℚ) : ℚ :=
  if wind > 120 then 35
  else if wind > 100 then 25
  else if wind > 80 then 15
  else min (wind / 80 * 10) 10

/-- Python int(): truncation toward zero. -/
def truncInt (x : ℚ) : ℤ :=
  if x < 0 then ⌈x⌉ else ⌊x⌋

/-- Severity score on the 0-100 scale (weather_anomaly_detector.py lines 49-91). -/
def compute_severity_score (temp humidity wind : ℚ) : ℤ :=
  min (max (truncInt (temp_score temp + humidity_score humidity + wind_score wind)) 0) 100

/-- Historical pattern flags (weather_anomaly_detector.py lines 93-111). -/
structure HistoricalPatterns where
  historical_temp_deviation : Bool
  historical_humidity_deviation : Bool
  historical_wind_deviation : Bool
deriving DecidableEq

/-- Placeholder implementation: always returns no historical anomalies
(weather_anomaly_detector.py lines 103-111). -/
def check_historical_deviation_patterns : HistoricalPatterns :=
  ⟨false, false, false⟩

/-- Result record of detect_anomalies. -/
structure DetectionResult where
  anomaly_detected : Bool
  severity_score : ℤ
  alert_category : String
  anomalies : Anomalies
  historical_patterns : HistoricalPatterns
deriving DecidableEq

/-- Anomaly analysis of one record with numeric temperature, humidity and wind
fields (weather_anomaly_detector.py lines 113-161). -/
def detect_anomalies (temp humidity wind : ℚ) : DetectionResult :=
  let anomalies : Anomalies :=
    ⟨is_anomalous_temperature temp, is_anomalous_humidity humidity, is_anomalous_wind_speed wind⟩
  { anomaly_detected :=
      anomalies.temperature_anomaly || anomalies.humidity_anomaly || anomalies.wind_anomaly
    severity_score := compute_severity_score temp humidity wind
    alert_category := classify_alert_category temp humidity wind anomalies
    anomalies := anomalies
    historical_patterns := check_historical_deviation_patterns }

end WeatherAnomalyDetector

namespace WeatherDataProcessor

/-- Heat index, applied only above 20 degrees Celsius and 80 degrees Fahrenheit
(weather-data-processor/lambda_function.py lines 175-214). -/
def calculate_heat_index (temperature humidity : ℚ) : ℚ :=
  if temperature ≤ 20 then temperature
  else
    let temp_f := temperature * 9 / 5 + 32
    if temp_f ≥ 80 then
      let hi :=
        -42.379 + 2.04901523 * temp_f + 10.14333127 * humidity
          - 0.22475541 * temp_f * humidity - 6.83783e-3 * temp_f ^ 2
          - 5.481717e-2 * humidity ^ 2 + 1.22874e-3 * temp_f ^ 2 * humidity
          + 8.5282e-4 * temp_f * humidity ^ 2 - 1.99e-6 * temp_f ^ 2 * humidity ^ 2
      round1 ((hi - 32) * 5 / 9)
    else temperature

/-- Wind chill in metric units, applied only at ten degrees or below with wind
above 4.8 km/h (weather-data-processor/lambda_function.py lines 216-242). -/
noncomputable def calculate_wind_chill (temperature wind_speed : ℝ) : ℝ :=
  if temperature > 10 ∨ wind_speed ≤ 4.8 then temperature
  else
    round1 (13.12 + 0.6215 * temperature - 11.37 * wind_speed ^ (0.16 : ℝ)
      + 0.3965 * temperature * wind_speed ^ (0.16 : ℝ))

/-- Comfort index on a 0-10 scale (weather-data-processor/lambda_function.py
lines 244-285). -/
def calculate_comfort_index (temp humidity wind : ℚ) : ℚ :=
  let c0 : ℚ := 10
  let c1 :=
    if temp < -10 ∨ temp > 35 then c0 - 4
    else if temp < 5 ∨ temp > 30 then c0 - 3
    else if temp < 15 ∨ temp > 27 then c0 - 2
    else if temp < 18 ∨ temp > 24 then c0 - 1
    else c0
  let c2 :=
    if humidity > 80 ∨ humidity < 20 then c1 - 2
    else if humidity > 70 ∨ humidity < 30 then c1 - 1
    else c1
  let c3 :=
    if wind > 25 then c2 - 2
    else if wind > 15 then c2 - 1
    else if wind < 5 then c2 - 0.5
    else c2
  max 0 (round1 c3)

/-- Points added for temperature extremes (lambda_function.py lines 306-320). -/
def temperatureSeverity (temp : ℚ) : ℚ :=
  if temp ≤ -35 then 4
  else if temp ≤ -25 then 3
  else if temp ≤ -15 then 2
  else if temp ≤ -5 then 1
  else if temp ≥ 40 then 4
  else if temp ≥ 35 then 3
  else if temp ≥ 30 then 2
  else 0

/-- Points added for wind severity (lambda_function.py lines 322-328). -/
def windSeverity (wind : ℚ) : ℚ :=
  if wind ≥ 40 then 3
  else if wind ≥ 25 then 2
  else if wind ≥ 15 then 1
  else 0

/-- Points added for pressure deviation (lambda_function.py lines 330-334). -/
def pressureSeverity (pressure : ℚ) : ℚ :=
  if pressure < 980 ∨ pressure > 1040 then 2
  else if pressure < 990 ∨ pressure > 1030 then 1
  else 0

/-- Points added for low visibility (lambda_function.py lines 336-340). -/
def visibilitySeverity (visibility : ℚ) : ℚ :=
  if visibility < 1 then 2
  else if visibility < 5 then 1
  else 0

/-- Blizzard combination bonus (lambda_function.py lines 342-344). -/
def blizzardBonus (temp wind : ℚ) : ℚ :=
  if temp < -20 ∧ wind > 20 then 2 else 0

/-- Dangerous heat and humidity bonus (lambda_function.py lines 346-347). -/
def heatHumidityBonus (temp humidity : ℚ) : ℚ :=
  if temp > 30 ∧ humidity > 80 then 2 else 0

/-- Bounded-10 severity score: the additive point scheme of
calculate_advanced_severity_score (lambda_function.py lines 287-353), with the
sequential increments written as a sum of the per-block contributions.
Pressure defaults to 1013 and visibility to 10 at the call site. -/
def calculate_advanced_severity_score
    (temp humidity wind pressure visibility : ℚ) (alert_flags : List String) : ℚ :=
  min 10 (round1
    (temperatureSeverity temp + windSeverity wind + pressureSeverity pressure
      + visibilitySeverity visibility + blizzardBonus temp wind
      + heatHumidityBonus temp humidity + (alert_flags.length : ℚ) * 0.5))

/-- Risk category from the bounded-10 severity score (lambda_function.py
lines 355-377). -/
def categorize_weather_risk (severity_score : ℚ) : String :=
  if severity_score ≥ 8 then "EXTREME"
  else if severity_score ≥ 6 then "HIGH"
  else if severity_score ≥ 4 then "MODERATE"
  else if severity_score ≥ 2 then "LOW"
  else "MINIMAL"

/-- Position of a category in the order MINIMAL, LOW, MODERATE, HIGH, EXTREME. -/
def riskRank : String → ℕ
  | "EXTREME" => 4
  | "HIGH" => 3
  | "MODERATE" => 2
  | "LOW" => 1
  | _ => 0

/-- Mean of a history window, statistics.mean. -/
def histMean (xs : List ℚ) : ℚ :=
  xs.sum / (xs.length : ℚ)

/-- Sample variance with denominator n - 1, the square of statistics.stdev. -/
def sampleVariance (xs : List ℚ) : ℚ :=
  ((xs.map fun x => (x - histMean xs) ^ 2).sum) / ((xs.length : ℚ) - 1)

/-- Historical-deviation anomaly flag for a history window of temperatures.
The guard on fewer than ten samples is lambda_function.py lines 408-409.
Modelled from the spec: the z-score threshold comparison that follows line 417
is absent from src (the file is truncated inside detect_weather_anomalies);
per the spec a result is anomalous when the z-score exceeds 2.0 and a zero
standard deviation suppresses the mode, stated here on squares to stay in
exact arithmetic (z exceeds 2 exactly when z squared exceeds 4). -/
def detect_weather_anomalies (historical_temps : List ℚ) (current_temp : ℚ) : Bool :=
  if historical_temps.length < 10 then false
  else if sampleVariance historical_temps = 0 then false
  else decide ((current_temp - histMean historical_temps) ^ 2
    > 4 * sampleVariance historical_temps)

/-- Modelled from the spec: calculate_anomaly_score is called at
lambda_function.py line 142 but its definition is absent from src (the file is
truncated at line 417). Per the spec the score is the absolute difference of
the current temperature from the historical mean divided by the sample
standard deviation, and 0.0 when the window has fewer than three samples or
the standard deviation is zero; represented here by its square to stay in
exact arithmetic (the score is zero exactly when its square is zero). -/
def calculate_anomaly_score_sq (historical_temps : List ℚ) (current_temp : ℚ) : ℚ :=
  if historical_temps.length < 3 ∨ sampleVariance historical_temps = 0 then 0
  else (current_temp - histMean historical_temps) ^ 2 / sampleVariance historical_temps

/-- A decoded Kinesis payload: a weather dict whose fields may be absent. -/
structure WeatherMsg where
  city : Option String
  timestamp : Option String
  temperature_celsius : Option ℚ
  humidity_percent : Option ℚ
  wind_speed_kmh : Option ℚ
  pressure_hpa : Option ℚ
  visibility_km : Option ℚ
  alert_flags : List String

/-- Bare dict access by key: a missing key is a KeyError. -/
def getField {β : Type} (f : Option β) (name : String) : Except String β :=
  match f with
  | some v => Except.ok v
  | none => Except.error ("KeyError: " ++ name)

/-- The enriched record built by process_and_enrich_weather_data. -/
structure EnrichedData where
  city : String
  temperature_celsius : ℚ
  humidity_percent : ℚ
  wind_speed_kmh : ℚ
  heat_index : ℚ
  wind_chill : ℝ
  comfort_index : ℚ
  severity_score : ℚ
  risk_category : String
  anomaly_detected : Bool

/-- Enrichment of one record (lambda_function.py lines 103-151), with the
per-city history window passed in for the table the code queries. A record
missing a required field raises, modelled as an error value. -/
noncomputable def process_and_enrich_weather_data
    (history : String → List ℚ) (w : WeatherMsg) : Except String EnrichedData := do
  let city ← getField w.city "city"
  let temp ← getField w.temperature_celsius "temperature_celsius"
  let humidity ← getField w.humidity_percent "humidity_percent"
  let wind ← getField w.wind_speed_kmh "wind_speed_kmh"
  let pressure := w.pressure_hpa.getD 1013
  let visibility := w.visibility_km.getD 10
  let severity := calculate_advanced_severity_score temp humidity wind pressure visibility
    w.alert_flags
  Except.ok
    { city := city
      temperature_celsius := temp
      humidity_percent := humidity
      wind_speed_kmh := wind
      heat_index := calculate_heat_index temp humidity
      wind_chill := calculate_wind_chill (temp : ℝ) (wind : ℝ)
      comfort_index := calculate_comfort_index temp humidity wind
      severity_score := severity
      risk_category := categorize_weather_risk severity
      anomaly_detected := detect_weather_anomalies (history city) temp }

/-- Batch processing summary (lambda_function.py lines 47-50 and 88-94), with
the records stored to the table collected in a list. -/
structure Summary where
  processed_records : ℕ
  failed_records : ℕ
  anomalies_detected : ℕ
  stored : List EnrichedData

/-- One iteration of the per-record loop: a failure is counted and skipped, a
success is stored and counted (lambda_function.py lines 54-81). -/
noncomputable def handler_step (history : String → List ℚ) (s : Summary) (w : WeatherMsg) :
    Summary :=
  match process_and_enrich_weather_data history w with
  | Except.ok p =>
    { processed_records := s.processed_records + 1
      failed_records := s.failed_records
      anomalies_detected := s.anomalies_detected + (if p.anomaly_detected then 1 else 0)
      stored := s.stored ++ [p] }
  | Except.error _ =>
    { s with failed_records := s.failed_records + 1 }

/-- The batch handler (lambda_function.py lines 32-101). -/
noncomputable def lambda_handler (history : String → List ℚ) (records : List WeatherMsg) :
    Summary :=
  records.foldl (handler_step history) ⟨0, 0, 0, []⟩

end WeatherDataProcessor

namespace DataExporter

/-- A stored record fetched back for export; every field access in the
exporter goes through dict.get with a default, so all fields are optional. -/
structure ExportItem where
  city : Option String
  province : Option String
  region : Option String
  timestamp : Option String
  temperature_celsius : Option ℚ
  humidity_percent : Option ℚ
  wind_speed_kmh : Option ℚ
  pressure_hpa : Option ℚ
  severity_score : Option ℚ
  feels_like_temp : Option ℚ
  weather_condition : Option String
  alert_flags : List String
deriving DecidableEq

/-- Per-city rollup row (data_exporter.py lines 99-111). -/
structure CityStats where
  city : String
  province : String
  region : String
  record_count : ℕ
  avg_temperature : ℚ
  min_temperature : ℚ
  max_temperature : ℚ
  avg_severity : ℚ
  max_severity : ℚ
  alert_count : ℕ
  latest_timestamp : String
deriving DecidableEq

/-- The dict created by setdefault on first sight of a city
(data_exporter.py lines 99-111). -/
def initStats (item : ExportItem) : CityStats :=
  { city := item.city.getD "Unknown"
    province := item.province.getD ""
    region := item.region.getD ""
    record_count := 0
    avg_temperature := 0
    min_temperature := item.temperature_celsius.getD 0
    max_temperature := item.temperature_celsius.getD 0
    avg_severity := 0
    max_severity := item.severity_score.getD 0
    alert_count := 0
    latest_timestamp := item.timestamp.getD "" }

/-- The incremental update of one rollup row (data_exporter.py lines 113-122). -/
def updateStats (stats : CityStats) (item : ExportItem) : CityStats :=
  let temp := item.temperature_celsius.getD 0
  let severity := item.severity_score.getD 0
  let n := stats.record_count + 1
  { stats with
    record_count := n
    avg_temperature := (stats.avg_temperature * ((n : ℚ) - 1) + temp) / (n : ℚ)
    min_temperature := min stats.min_temperature temp
    max_temperature := max stats.max_temperature temp
    avg_severity := (stats.avg_severity * ((n : ℚ) - 1) + severity) / (n : ℚ)
    max_severity := max stats.max_severity severity
    alert_count := stats.alert_count + item.alert_flags.length
    latest_timestamp :=
      if item.timestamp.getD "" > stats.latest_timestamp then item.timestamp.getD ""
      else stats.latest_timestamp }

/-- One iteration of the rollup loop over the batch (data_exporter.py
lines 94-122), acting on the city keyed map. -/
def stepCity (m : String → Option CityStats) (item : ExportItem) :
    String → Option CityStats :=
  let city := item.city.getD "Unknown"
  let stats := (m city).getD (initStats item)
  fun c => if c = city then some (updateStats stats item) else m c

/-- The city summary rollup before the final rounding pass (data_exporter.py
lines 90-122). -/
def create_city_summary_export (items : List ExportItem) : String → Option CityStats :=
  items.foldl stepCity (fun _ => none)

/-- The final rounding of the two averages (data_exporter.py lines 124-127). -/
def roundStats (s : CityStats) : CityStats :=
  { s with
    avg_temperature := round1 s.avg_temperature
    avg_severity := round1 s.avg_severity }

/-- One row of the alert log (data_exporter.py lines 147-160). -/
structure AlertRow where
  timestamp : String
  city : String
  province : String
  alert_type : String
  temperature : ℚ
  feels_like : ℚ
  humidity : ℚ
  wind_speed : ℚ
  severity_score : ℚ
  weather_condition : String
deriving DecidableEq

/-- The alert rows contributed by one item, one per alert flag
(data_exporter.py lines 148-160). -/
def alertRowsOf (item : ExportItem) : List AlertRow :=
  item.alert_flags.map fun alert =>
    { timestamp := item.timestamp.getD ""
      city := item.city.getD ""
      province := item.province.getD ""
      alert_type := alert
      temperature := item.temperature_celsius.getD 0
      feels_like := item.feels_like_temp.getD (item.temperature_celsius.getD 0)
      humidity := item.humidity_percent.getD 0
      wind_speed := item.wind_speed_kmh.getD 0
      severity_score := item.severity_score.getD 0
      weather_condition := item.weather_condition.getD "" }

/-- The alert log export (data_exporter.py lines 143-176). -/
def create_alerts_export (items : List ExportItem) : List AlertRow :=
  items.foldl (fun acc item => acc ++ alertRowsOf item) []

/-- One row of the trend series (data_exporter.py lines 192-206). -/
structure TrendRow where
  timestamp : String
  city : String
  province : String
  region : String
  temperature : ℚ
  temp_trend_3pt : ℚ
  feels_like : ℚ
  humidity : ℚ
  pressure : ℚ
  wind_speed : ℚ
  severity_score : ℚ
  weather_condition : String
  alert_count : ℕ
deriving DecidableEq

/-- State of the trend loop: per-city temperature lists and the rows so far. -/
structure TrendState where
  city_temps : String → List ℚ
  trend_data : List TrendRow

/-- Python negative slicing xs[-n:]: the trailing at-most-n elements. -/
def lastN (n : ℕ) (xs : List ℚ) : List ℚ :=
  xs.drop (xs.length - n)

/-- One iteration of the trend loop (data_exporter.py lines 184-206). -/
def trendStep (st : TrendState) (item : ExportItem) : TrendState :=
  let city := item.city.getD ""
  let temp := item.temperature_celsius.getD 0
  let temp_list := st.city_temps city ++ [temp]
  let avg_3pt := round1 ((lastN 3 temp_list).sum / ((min 3 temp_list.length : ℕ) : ℚ))
  { city_temps := fun c => if c = city then temp_list else st.city_temps c
    trend_data := st.trend_data ++
      [{ timestamp := item.timestamp.getD ""
         city := city
         province := item.province.getD ""
         region := item.region.getD ""
         temperature := temp
         temp_trend_3pt := avg_3pt
         feels_like := item.feels_like_temp.getD temp
         humidity := item.humidity_percent.getD 0
         pressure := item.pressure_hpa.getD 1013
         wind_speed := item.wind_speed_kmh.getD 0
         severity_score := item.severity_score.getD 0
         weather_condition := item.weather_condition.getD ""
         alert_count := item.alert_flags.length }] }

/-- The batch sorted ascending by timestamp (data_exporter.py line 180);
Python sorted is a stable merge sort on the key. -/
def sortByTimestamp (items : List ExportItem) : List ExportItem :=
  items.mergeSort fun a b => decide (a.timestamp.getD "" ≤ b.timestamp.getD "")

/-- The trend series export (data_exporter.py lines 178-219). -/
def create_trend_analysis_export (items : List ExportItem) : List TrendRow :=
  ((sortByTimestamp items).foldl trendStep ⟨fun _ => [], []⟩).trend_data

/-- The city key used by the rollup (data_exporter.py line 95). -/
def summaryKey (item : ExportItem) : String :=
  item.city.getD "Unknown"

/-- The temperatures of the items of one city in batch order, with the zero
default the exporter applies (data_exporter.py line 96). -/
def cityTempsOf (items : List ExportItem) (c : String) : List ℚ :=
  (items.filter fun it => summaryKey it = c).map fun it => it.temperature_celsius.getD 0

/-- The city key used by the trend series (data_exporter.py line 185). -/
def trendKey (item : ExportItem) : String :=
  item.city.getD ""

/-- The temperatures of the items of one city in list order for the trend
series, with the zero default of data_exporter.py line 186. -/
def trendTempsOf (items : List ExportItem) (c : String) : List ℚ :=
  (items.filter fun it => trendKey it = c).map fun it => it.temperature_celsius.getD 0

end DataExporter

section Claims

open WeatherAnomalyDetector WeatherDataProcessor DataExporter

/-- Claim C2, counterexample: on the observation with temperature 50,
humidity 10 and wind 200, the humidity axis does NOT fire, because 10 percent
is inside the [0, 100] bounds checked by is_anomalous_humidity; the claim that
the absolute-bounds checks fire on all three axes is therefore false. -/
theorem claim_C2_counterexample :
    (detect_anomalies 50 10 200).anomalies.humidity_anomaly = false
      ∧ is_anomalous_humidity 10 = false := by
  constructor <;> decide

/-- Claim C2, amended: on the observation with temperature 50, humidity 10 and
wind 200, the absolute-bounds checks fire on the temperature and wind axes but
not on the humidity axis, the overall anomaly flag is set, and the alert
category resolves to heat_extreme because the temperature branch of
classify_alert_category is tested before the wind branch. -/
theorem claim_C2_amended :
    (detect_anomalies 50 10 200).anomalies.temperature_anomaly = true
      ∧ (detect_anomalies 50 10 200).anomalies.wind_anomaly = true
      ∧ (detect_anomalies 50 10 200).anomalies.humidity_anomaly = false
      ∧ (detect_anomalies 50 10 200).anomaly_detected = true
      ∧ (detect_anomalies 50 10 200).alert_category = "heat_extreme" := by
  refine ⟨?_, ?_, ?_, ?_, ?_⟩ <;> decide

/-- Claim C5: in historical-deviation mode, a window of fewer than three
samples or a zero sample standard deviation (equivalently a zero sample
variance) yields an anomaly score of zero and no deviation-based flag,
whatever the current temperature; both functions are total, so insufficient
history never raises an error. -/
theorem claim_C5 (historical_temps : List ℚ) (current_temp : ℚ)
    (h : historical_temps.length < 3 ∨ sampleVariance historical_temps = 0) :
    calculate_anomaly_score_sq historical_temps current_temp = 0
      ∧ detect_weather_anomalies historical_temps current_temp = false
      ∧ check_historical_deviation_patterns.historical_temp_deviation = false := by
  refine ⟨?_, ?_, rfl⟩
  · unfold calculate_anomaly_score_sq
    rw [if_pos h]
  · unfold detect_weather_anomalies
    rcases h with h | h
    · rw [if_pos (by omega)]
    · by_cases hl : historical_temps.length < 10
      · rw [if_pos hl]
      · rw [if_neg hl, if_pos h]

/-- Claim C5, witness: a single-sample window suppresses the deviation mode,
even with a current temperature far from the historical mean. -/
theorem claim_C5_witness :
    calculate_anomaly_score_sq [5] 100 = 0 ∧ detect_weather_anomalies [5] 100 = false
      ∧ check_historical_deviation_patterns.historical_temp_deviation = false := by
  exact claim_C5 [5] 100 (Or.inl (by decide))

/-- Helper: the rank of the assigned category as a step function of the score. -/
theorem riskRank_categorize (s : ℚ) :
    riskRank (categorize_weather_risk s)
      = if s ≥ 8 then 4 else if s ≥ 6 then 3 else if s ≥ 4 then 2
        else if s ≥ 2 then 1 else 0 := by
  unfold categorize_weather_risk riskRank
  split_ifs <;> rfl

/-- Claim C8: under the bounded-10 policy, categorize_weather_risk maps a
score s to EXTREME exactly when 8 ≤ s, HIGH exactly when 6 ≤ s < 8, MODERATE
exactly when 4 ≤ s < 6, LOW exactly when 2 ≤ s < 4 and MINIMAL exactly when
s < 2; consequently the assigned category is monotone non-decreasing in the
score under the order MINIMAL, LOW, MODERATE, HIGH, EXTREME. -/
theorem claim_C8 (s s1 s2 : ℚ) :
    ((categorize_weather_risk s = "EXTREME" ↔ 8 ≤ s)
      ∧ (categorize_weather_risk s = "HIGH" ↔ 6 ≤ s ∧ s < 8)
      ∧ (categorize_weather_risk s = "MODERATE" ↔ 4 ≤ s ∧ s < 6)
      ∧ (categorize_weather_risk s = "LOW" ↔ 2 ≤ s ∧ s < 4)
      ∧ (categorize_weather_risk s = "MINIMAL" ↔ s < 2))
    ∧ (s1 ≤ s2 →
        riskRank (categorize_weather_risk s1) ≤ riskRank (categorize_weather_risk s2)) := by
  constructor
  · unfold categorize_weather_risk
    split_ifs with h1 h2 h3 h4 <;>
      refine ⟨?_, ?_, ?_, ?_, ?_⟩ <;>
      first
        | exact iff_of_true rfl (by first | constructor <;> linarith | linarith)
        | exact iff_of_false (by decide)
            (by intro hx; first | (obtain ⟨ha, hb⟩ := hx; linarith) | linarith)
  · intro hle
    rw [riskRank_categorize, riskRank_categorize]
    split_ifs <;> first | omega | (exfalso; linarith)

/-- Claim C8, witness: the monotonicity instance at the scores 1 and 5. -/
theorem claim_C8_witness :
    riskRank (categorize_weather_risk 1) ≤ riskRank (categorize_weather_risk 5) :=
  (claim_C8 0 1 5).2 (by norm_num)

/-- Helper: when none of the specific branch guards of classify_alert_category
holds, all three basic anomaly flags are in fact clear. -/
theorem anomalies_all_false (temp humidity wind : ℚ)
    (g1 : ¬(is_anomalous_temperature temp = true ∧ (temp < -50 ∨ temp < -30)))
    (g2 : ¬(is_anomalous_temperature temp = true ∧ (temp > 45 ∨ temp > 35)))
    (g3 : ¬(is_anomalous_wind_speed wind = true ∧ wind > 100))
    (g4 : ¬(is_anomalous_humidity humidity = true)) :
    anomalies_count ⟨is_anomalous_temperature temp, is_anomalous_humidity humidity,
      is_anomalous_wind_speed wind⟩ = 0 := by
  have ht : is_anomalous_temperature temp = false := by
    cases h : is_anomalous_temperature temp
    · rfl
    · exfalso
      rcases (of_decide_eq_true h : temp < -50 ∨ temp > 45) with hc | hc
      · exact g1 ⟨h, Or.inl hc⟩
      · exact g2 ⟨h, Or.inl hc⟩
  have hw : is_anomalous_wind_speed wind = false := by
    cases h : is_anomalous_wind_speed wind
    · rfl
    · exfalso
      have h150 : wind > 150 := of_decide_eq_true h
      exact g3 ⟨h, by linarith⟩
  have hh : is_anomalous_humidity humidity = false := by
    cases h : is_anomalous_humidity humidity
    · rfl
    · exact absurd h g4
  simp [anomalies_count, ht, hw, hh]

/-- Claim C10: for numeric inputs, detect_anomalies never returns the
severe_weather category, and whenever at least two basic anomaly flags are
set the returned category is one of the four specific extreme labels, because
each individual flag already makes its own specific branch of
classify_alert_category fire before the severe_weather branch is reached. -/
theorem claim_C10 (temp humidity wind : ℚ) :
    (detect_anomalies temp humidity wind).alert_category ≠ "severe_weather"
      ∧ (2 ≤ anomalies_count (detect_anomalies temp humidity wind).anomalies →
          (detect_anomalies temp humidity wind).alert_category
            ∈ ["cold_extreme", "heat_extreme", "wind_extreme", "humidity_extreme"]) := by
  have hcat : (detect_anomalies temp humidity wind).alert_category
      = classify_alert_category temp humidity wind
          ⟨is_anomalous_temperature temp, is_anomalous_humidity humidity,
            is_anomalous_wind_speed wind⟩ := rfl
  have han : (detect_anomalies temp humidity wind).anomalies
      = ⟨is_anomalous_temperature temp, is_anomalous_humidity humidity,
          is_anomalous_wind_speed wind⟩ := rfl
  rw [hcat, han]
  unfold classify_alert_category
  split_ifs with g1 g2 g3 g4 g5
  · exact ⟨by decide, fun _ => by decide⟩
  · exact ⟨by decide, fun _ => by decide⟩
  · exact ⟨by decide, fun _ => by decide⟩
  · exact ⟨by decide, fun _ => by decide⟩
  · exfalso
    have h0 := anomalies_all_false temp humidity wind g1 g2 g3 g4
    omega
  · refine ⟨by decide, fun hcount => ?_⟩
    exfalso
    omega

/-- Claim C10, witness: at temperature 50 and wind 200 two flags are set and
the returned category is one of the specific labels. -/
theorem claim_C10_witness :
    (detect_anomalies 50 50 200).alert_category
      ∈ ["cold_extreme", "heat_extreme", "wind_extreme", "humidity_extreme"] :=
  (claim_C10 50 50 200).2 (by decide)

/-- Claim C7, counterexample: the wind sub-score of the bounded-100 policy is
not bounded below by zero for every wind input; at wind -80 the final branch
min(wind / 80 * 10, 10) yields -10, outside the claimed [0, 35]. -/
theorem claim_C7_counterexample :
    wind_score (-80) = -10 ∧ wind_score (-80) < 0 := by
  have h : wind_score (-80) = -10 := by
    unfold wind_score
    norm_num [min_def]
  exact ⟨h, by rw [h]; norm_num⟩

/-- Claim C7, amended: the bounded-10 severity score is always in [0, 10] and
the bounded-100 score is always an integer in [0, 100]; the temperature
sub-score lies in [0, 40] and the humidity sub-score in [0, 25] for all
inputs, while the wind sub-score is bounded above by 35 for all inputs but
bounded below by zero only for non-negative wind speeds (for negative wind
the unclamped final branch is negative). -/
theorem claim_C7 (temp humidity wind pressure visibility : ℚ) (alert_flags : List String) :
    (0 ≤ calculate_advanced_severity_score temp humidity wind pressure visibility alert_flags
      ∧ calculate_advanced_severity_score temp humidity wind pressure visibility alert_flags
        ≤ 10)
    ∧ (0 ≤ compute_severity_score temp humidity wind
      ∧ compute_severity_score temp humidity wind ≤ 100)
    ∧ (0 ≤ temp_score temp ∧ temp_score temp ≤ 40)
    ∧ (0 ≤ humidity_score humidity ∧ humidity_score humidity ≤ 25)
    ∧ wind_score wind ≤ 35
    ∧ (0 ≤ wind → 0 ≤ wind_score wind) := by
  refine ⟨⟨?_, ?_⟩, ⟨?_, ?_⟩, ?_, ?_, ?_, ?_⟩
  · have h1 : 0 ≤ temperatureSeverity temp := by
      unfold temperatureSeverity; split_ifs <;> norm_num
    have h2 : 0 ≤ windSeverity wind := by
      unfold windSeverity; split_ifs <;> norm_num
    have h3 : 0 ≤ pressureSeverity pressure := by
      unfold pressureSeverity; split_ifs <;> norm_num
    have h4 : 0 ≤ visibilitySeverity visibility := by
      unfold visibilitySeverity; split_ifs <;> norm_num
    have h5 : 0 ≤ blizzardBonus temp wind := by
      unfold blizzardBonus; split_ifs <;> norm_num
    have h6 : 0 ≤ heatHumidityBonus temp humidity := by
      unfold heatHumidityBonus; split_ifs <;> norm_num
    have h7 : 0 ≤ (alert_flags.length : ℚ) * 0.5 := by positivity
    exact le_min (by norm_num) (round1_nonneg (by linarith))
  · exact min_le_left _ _
  · exact le_min (le_max_right _ _) (by norm_num)
  · exact min_le_right _ _
  · unfold temp_score
    split_ifs with a b c d e f <;> try norm_num
    push_neg at a b c d e f
    have habs : |temp - 22| ≤ 42 := abs_le.2 ⟨by linarith, by linarith⟩
    have h0 : 0 ≤ |temp - 22| := abs_nonneg _
    linarith
  · unfold humidity_score
    split_ifs with a b <;> try norm_num
    push_neg at a b
    have habs : |humidity - 50| ≤ 35 := abs_le.2 ⟨by linarith [a.1, b.1], by linarith [a.2, b.2]⟩
    have h0 : 0 ≤ |humidity - 50| := abs_nonneg _
    linarith
  · unfold wind_score
    split_ifs <;> norm_num
  · intro hw
    unfold wind_score
    split_ifs <;> try norm_num
    exact div_nonneg hw (by norm_num)

/-- Claim C7, witness: at wind 10 the wind sub-score is non-negative. -/
theorem claim_C7_witness : 0 ≤ wind_score 10 :=
  (claim_C7 25 50 10 1013 10 []).2.2.2.2.2 (by norm_num)

/-- Helper: above wind 4.8 the sixteenth-hundredth power of the wind speed is
at least 1.27, by comparing twenty-fifth powers. -/
theorem rpow_lower (V : ℝ) (hV : 4.8 < V) : (1.27 : ℝ) ≤ V ^ (0.16 : ℝ) := by
  have h48 : (0:ℝ) < 4.8 := by norm_num
  have hbase : (4.8:ℝ) ^ (0.16:ℝ) ≤ V ^ (0.16:ℝ) :=
    Real.rpow_le_rpow (le_of_lt h48) (le_of_lt hV) (by norm_num)
  have hkey : (1.27:ℝ) ≤ (4.8:ℝ) ^ (0.16:ℝ) := by
    have hpos : (0:ℝ) ≤ (4.8:ℝ) ^ (0.16:ℝ) := Real.rpow_nonneg (by norm_num) _
    have h25 : ((4.8:ℝ) ^ (0.16:ℝ)) ^ (25:ℕ) = (4.8:ℝ) ^ (4:ℕ) := by
      rw [← Real.rpow_natCast ((4.8:ℝ) ^ (0.16:ℝ)) 25, ← Real.rpow_mul (le_of_lt h48),
        show (0.16:ℝ) * ((25:ℕ):ℝ) = ((4:ℕ):ℝ) by norm_num, Real.rpow_natCast]
    apply le_of_pow_le_pow_left₀ (by norm_num : (25:ℕ) ≠ 0) hpos
    rw [h25]
    norm_num
  linarith

/-- Claim C4: whenever the temperature is at most ten degrees and the wind
exceeds 4.8 km/h, calculate_wind_chill applies the metric formula rounded to
one decimal and its result is at most the input temperature; otherwise it
returns the input temperature unchanged. -/
theorem claim_C4 (temperature wind_speed : ℝ) :
    (temperature ≤ 10 → 4.8 < wind_speed →
      calculate_wind_chill temperature wind_speed
        = round1 (13.12 + 0.6215 * temperature - 11.37 * wind_speed ^ (0.16 : ℝ)
            + 0.3965 * temperature * wind_speed ^ (0.16 : ℝ))
      ∧ calculate_wind_chill temperature wind_speed ≤ temperature)
    ∧ (wind_speed ≤ 4.8 ∨ 10 < temperature →
        calculate_wind_chill temperature wind_speed = temperature) := by
  constructor
  · intro hT hV
    have hcond : ¬(temperature > 10 ∨ wind_speed ≤ 4.8) := by
      push_neg
      exact ⟨by linarith, by linarith⟩
    have heq : calculate_wind_chill temperature wind_speed
        = round1 (13.12 + 0.6215 * temperature - 11.37 * wind_speed ^ (0.16 : ℝ)
            + 0.3965 * temperature * wind_speed ^ (0.16 : ℝ)) := by
      unfold calculate_wind_chill
      rw [if_neg hcond]
    refine ⟨heq, ?_⟩
    rw [heq]
    have hu127 : (1.27:ℝ) ≤ wind_speed ^ (0.16 : ℝ) := rpow_lower wind_speed hV
    have hval : 13.12 + 0.6215 * temperature - 11.37 * wind_speed ^ (0.16 : ℝ)
        + 0.3965 * temperature * wind_speed ^ (0.16 : ℝ) ≤ temperature - 1/20 := by
      nlinarith [mul_nonneg (by linarith : (0:ℝ) ≤ 10 - temperature)
        (by linarith : (0:ℝ) ≤ 0.3965 * wind_speed ^ (0.16 : ℝ) - 0.3785)]
    have hr := round1_le (13.12 + 0.6215 * temperature - 11.37 * wind_speed ^ (0.16 : ℝ)
        + 0.3965 * temperature * wind_speed ^ (0.16 : ℝ))
    linarith
  · intro h
    unfold calculate_wind_chill
    rw [if_pos]
    rcases h with h | h
    · exact Or.inr h
    · exact Or.inl h

/-- Claim C4, witness: at zero degrees with wind 32 the result only cools, and
at twenty degrees with wind 3 the temperature is returned unchanged. -/
theorem claim_C4_witness :
    calculate_wind_chill 0 32 ≤ 0 ∧ calculate_wind_chill 20 3 = 20 :=
  ⟨((claim_C4 0 32).1 (by norm_num) (by norm_num)).2,
    (claim_C4 20 3).2 (Or.inl (by norm_num))⟩

/-- Helper: the per-slot effect of one rollup iteration on the map entry of
the city of the item. -/
def slotStep (os : Option CityStats) (item : ExportItem) : Option CityStats :=
  some (updateStats (os.getD (initStats item)) item)

theorem updateStats_count (s : CityStats) (it : ExportItem) :
    (updateStats s it).record_count = s.record_count + 1 := rfl

theorem updateStats_avg (s : CityStats) (it : ExportItem) :
    (updateStats s it).avg_temperature
      = (s.avg_temperature * (((s.record_count + 1 : ℕ) : ℚ) - 1)
          + it.temperature_celsius.getD 0) / ((s.record_count + 1 : ℕ) : ℚ) := rfl

/-- Helper: the rollup fold restricted to one city key is the fold of the
per-slot update over the items of that city. -/
theorem fold_slot (items : List ExportItem) :
    ∀ (m : String → Option CityStats) (c : String),
      (items.foldl stepCity m) c
        = ((items.filter fun it => summaryKey it = c).foldl slotStep (m c)) := by
  induction items with
  | nil => intro m c; rfl
  | cons it rest ih =>
    intro m c
    have hstep : stepCity m it c
        = if c = summaryKey it
          then some (updateStats ((m (summaryKey it)).getD (initStats it)) it)
          else m c := rfl
    by_cases h : summaryKey it = c
    · rw [List.foldl_cons, ih, hstep, if_pos h.symm, h]
      simp [List.filter_cons, h, slotStep]
    · rw [List.foldl_cons, ih, hstep, if_neg (fun hc => h hc.symm)]
      simp [List.filter_cons, h]

/-- Helper invariant: folding a list of items into an existing rollup row adds
the list length to the count and the temperature sum to the scaled mean. -/
theorem slot_fold_inv (l : List ExportItem) :
    ∀ s : CityStats,
      ∃ s2, l.foldl slotStep (some s) = some s2
        ∧ s2.record_count = s.record_count + l.length
        ∧ s2.avg_temperature * ((s.record_count : ℚ) + (l.length : ℚ))
          = s.avg_temperature * (s.record_count : ℚ)
            + (l.map fun it => it.temperature_celsius.getD 0).sum := by
  induction l with
  | nil =>
    intro s
    exact ⟨s, rfl, by simp, by simp⟩
  | cons it rest ih =>
    intro s
    have hfold : (it :: rest).foldl slotStep (some s)
        = rest.foldl slotStep (some (updateStats s it)) := rfl
    obtain ⟨s2, h1, h2, h3⟩ := ih (updateStats s it)
    have havg : (updateStats s it).avg_temperature * ((s.record_count : ℚ) + 1)
        = s.avg_temperature * (s.record_count : ℚ) + it.temperature_celsius.getD 0 := by
      rw [updateStats_avg]
      push_cast
      field_simp
    refine ⟨s2, by rw [hfold]; exact h1, ?_, ?_⟩
    · rw [h2, updateStats_count, List.length_cons]
      omega
    · rw [updateStats_count] at h3
      rw [List.map_cons, List.sum_cons, List.length_cons]
      push_cast at h3 ⊢
      linear_combination h3 + havg

/-- A well-formed enriched item used for the concrete scenario batches. -/
def demoItem (ts : String) (t : ℚ) : ExportItem :=
  { city := some "Estevan"
    province := some "SK"
    region := some "Prairie"
    timestamp := some ts
    temperature_celsius := some t
    humidity_percent := some 50
    wind_speed_kmh := some 10
    pressure_hpa := some 1013
    severity_score := some 1
    feels_like_temp := none
    weather_condition := some "Clear"
    alert_flags := [] }

/-- The batch of three observations with temperatures 10, 20 and 30. -/
def demoMeanItems : List ExportItem :=
  [demoItem "2024-08-07T00" 10, demoItem "2024-08-07T01" 20, demoItem "2024-08-07T02" 30]

/-- Claim C1: for every batch and every city present in it, the rollup row of
the city holds a record count equal to the number of folded observations of
that city and a running mean temperature exactly equal to the arithmetic mean
of the temperatures folded so far; in particular folding temperatures 10, 20
and 30 for one city yields the running mean 20 exactly. -/
theorem claim_C1 :
    (∀ (items : List ExportItem) (c : String) (s : CityStats),
      create_city_summary_export items c = some s →
        s.record_count = (cityTempsOf items c).length
          ∧ 0 < s.record_count
          ∧ s.avg_temperature = (cityTempsOf items c).sum / ((cityTempsOf items c).length : ℚ))
    ∧ ((create_city_summary_export demoMeanItems "Estevan").map
        fun s => (s.avg_temperature, s.record_count)) = some (20, 3) := by
  constructor
  · intro items c s h
    rw [create_city_summary_export, fold_slot] at h
    rcases hfl : items.filter fun it => summaryKey it = c with _ | ⟨it, rest⟩
    · rw [hfl] at h
      simp at h
    · rw [hfl] at h
      have hs1 : (it :: rest).foldl slotStep (none : Option CityStats)
          = rest.foldl slotStep (some (updateStats (initStats it) it)) := rfl
      obtain ⟨s2, h1, h2, h3⟩ := slot_fold_inv rest (updateStats (initStats it) it)
      rw [hs1, h1] at h
      obtain rfl : s2 = s := by injection h
      have hc0 : (initStats it).record_count = 0 := rfl
      have ha0 : (initStats it).avg_temperature = 0 := rfl
      rw [updateStats_count, hc0] at h2 h3
      have havg1 : (updateStats (initStats it) it).avg_temperature
          = it.temperature_celsius.getD 0 := by
        rw [updateStats_avg, hc0, ha0]
        norm_num
      rw [havg1] at h3
      have hlen : (cityTempsOf items c).length = 1 + rest.length := by
        rw [cityTempsOf, hfl]
        simp [Nat.add_comm]
      have hsum : (cityTempsOf items c).sum
          = it.temperature_celsius.getD 0
            + (rest.map fun x => x.temperature_celsius.getD 0).sum := by
        rw [cityTempsOf, hfl]
        simp
      refine ⟨by omega, by omega, ?_⟩
      have hlenq : ((cityTempsOf items c).length : ℚ) = 1 + (rest.length : ℚ) := by
        rw [hlen]; push_cast; ring
      have hne : ((cityTempsOf items c).length : ℚ) ≠ 0 := by
        rw [hlenq]; positivity
      rw [eq_div_iff hne, hlenq, hsum]
      push_cast at h3 ⊢
      linarith [h3]
  · simp only [demoMeanItems, demoItem, create_city_summary_export, List.foldl_cons,
      List.foldl_nil, stepCity, updateStats, initStats, Option.getD]
    norm_num

/-- The rollup row of a single-item batch with temperature 10. -/
def demoStats1 : CityStats :=
  { city := "Estevan"
    province := "SK"
    region := "Prairie"
    record_count := 1
    avg_temperature := 10
    min_temperature := 10
    max_temperature := 10
    avg_severity := 1
    max_severity := 1
    alert_count := 0
    latest_timestamp := "2024-08-07T00" }

/-- Claim C1, witness: on the single-item batch the rollup row has count one
and running mean equal to the mean of the folded temperatures. -/
theorem claim_C1_witness :
    demoStats1.record_count = (cityTempsOf [demoItem "2024-08-07T00" 10] "Estevan").length
      ∧ 0 < demoStats1.record_count
      ∧ demoStats1.avg_temperature
        = (cityTempsOf [demoItem "2024-08-07T00" 10] "Estevan").sum
          / ((cityTempsOf [demoItem "2024-08-07T00" 10] "Estevan").length : ℚ) :=
  claim_C1.1 [demoItem "2024-08-07T00" 10] "Estevan" demoStats1 (by
    simp only [create_city_summary_export, List.foldl_cons, List.foldl_nil, stepCity,
      updateStats, initStats, demoItem, demoStats1, Option.getD]
    norm_num)

/-- A stored record whose temperature field is absent but which carries one
alert flag; used to exercise the exporter defaults. -/
def noTempItem : ExportItem :=
  { city := some "Estevan"
    province := some "SK"
    region := some "Prairie"
    timestamp := some "2024-08-07T00"
    temperature_celsius := none
    humidity_percent := some 50
    wind_speed_kmh := some 10
    pressure_hpa := some 1013
    severity_score := some 1
    feels_like_temp := none
    weather_condition := some "Clear"
    alert_flags := ["HIGH_WIND"] }

/-- A decoded stream record whose temperature field is absent. -/
def noTempMsg : WeatherMsg :=
  { city := some "Estevan"
    timestamp := some "2024-08-07T00"
    temperature_celsius := none
    humidity_percent := some 50
    wind_speed_kmh := some 10
    pressure_hpa := none
    visibility_km := none
    alert_flags := [] }

/-- Claim C3, counterexample: a record with a missing temperature is NOT
excluded from the city rollup; it is counted and its temperature is replaced
by the zero default of dict.get, so the rollup row reports count one with
mean and minimum temperature zero. -/
theorem claim_C3_counterexample :
    ((create_city_summary_export [noTempItem] "Estevan").map
      fun s => (s.record_count, s.avg_temperature, s.min_temperature)) = some (1, 0, 0) := by
  simp only [create_city_summary_export, List.foldl_cons, List.foldl_nil, stepCity,
    updateStats, initStats, noTempItem, Option.getD]
  norm_num

/-- Claim C3, amended: at the stream-processing boundary a record missing a
required metric (temperature, humidity or wind speed) is surfaced as a
KeyError-style input error and produces no enriched output; the export views
however do not exclude such records: city rollup, alert log and trend series
all substitute the zero default of dict.get for the missing temperature when
computing their rows. -/
theorem claim_C3 :
    (∀ (history : String → List ℚ) (w : WeatherMsg),
      w.temperature_celsius = none ∨ w.humidity_percent = none ∨ w.wind_speed_kmh = none →
        ∃ e, process_and_enrich_weather_data history w = Except.error e)
    ∧ ((create_city_summary_export [noTempItem] "Estevan").map
        fun s => (s.record_count, s.avg_temperature)) = some (1, 0)
    ∧ ((create_alerts_export [noTempItem]).map fun r => r.temperature) = [0]
    ∧ ((create_trend_analysis_export [noTempItem]).map fun r => r.temperature) = [0] := by
  refine ⟨?_, ?_, ?_, ?_⟩
  · intro history w h
    rcases hcity : w.city with _ | c
    · exact ⟨"KeyError: city",
        by simp [process_and_enrich_weather_data, getField, Except.instMonad, Except.bind, hcity]⟩
    · rcases h with h | h | h
      · exact ⟨"KeyError: temperature_celsius",
          by simp [process_and_enrich_weather_data, getField, Except.instMonad, Except.bind, hcity, h]⟩
      · rcases ht : w.temperature_celsius with _ | t
        · exact ⟨"KeyError: temperature_celsius",
            by simp [process_and_enrich_weather_data, getField, Except.instMonad, Except.bind, hcity, ht]⟩
        · exact ⟨"KeyError: humidity_percent",
            by simp [process_and_enrich_weather_data, getField, Except.instMonad, Except.bind, hcity, ht, h]⟩
      · rcases ht : w.temperature_celsius with _ | t
        · exact ⟨"KeyError: temperature_celsius",
            by simp [process_and_enrich_weather_data, getField, Except.instMonad, Except.bind, hcity, ht]⟩
        · rcases hh : w.humidity_percent with _ | hu
          · exact ⟨"KeyError: humidity_percent",
              by simp [process_and_enrich_weather_data, getField, Except.instMonad, Except.bind, hcity, ht, hh]⟩
          · exact ⟨"KeyError: wind_speed_kmh",
              by simp [process_and_enrich_weather_data, getField, Except.instMonad, Except.bind, hcity, ht, hh, h]⟩
  · simp only [create_city_summary_export, List.foldl_cons, List.foldl_nil, stepCity,
      updateStats, initStats, noTempItem, Option.getD]
    norm_num
  · simp [create_alerts_export, alertRowsOf, noTempItem]
  · simp only [create_trend_analysis_export, sortByTimestamp, List.mergeSort_singleton,
      List.foldl_cons, List.foldl_nil, trendStep, lastN, noTempItem, Option.getD]
    norm_num [round1, bround]

/-- Claim C3, witness: the record with the absent temperature field makes the
boundary enrichment return an error. -/
theorem claim_C3_witness :
    ∃ e, process_and_enrich_weather_data (fun _ => []) noTempMsg = Except.error e :=
  claim_C3.1 (fun _ => []) noTempMsg (Or.inl rfl)

/-- Helper: the update of the per-city temperature map by one trend item. -/
def trendMapUpd (m : String → List ℚ) (item : ExportItem) : String → List ℚ :=
  fun c => if c = trendKey item then m (trendKey item) ++ [item.temperature_celsius.getD 0]
    else m c

/-- Helper: the trend row emitted for one item given the temperature map
accumulated from the prior items. -/
def mkTrendRow (m : String → List ℚ) (item : ExportItem) : TrendRow :=
  let temp_list := m (trendKey item) ++ [item.temperature_celsius.getD 0]
  { timestamp := item.timestamp.getD ""
    city := trendKey item
    province := item.province.getD ""
    region := item.region.getD ""
    temperature := item.temperature_celsius.getD 0
    temp_trend_3pt := round1 ((lastN 3 temp_list).sum / ((min 3 temp_list.length : ℕ) : ℚ))
    feels_like := item.feels_like_temp.getD (item.temperature_celsius.getD 0)
    humidity := item.humidity_percent.getD 0
    pressure := item.pressure_hpa.getD 1013
    wind_speed := item.wind_speed_kmh.getD 0
    severity_score := item.severity_score.getD 0
    weather_condition := item.weather_condition.getD ""
    alert_count := item.alert_flags.length }

theorem trendStep_eq (st : TrendState) (item : ExportItem) :
    trendStep st item
      = ⟨trendMapUpd st.city_temps item, st.trend_data ++ [mkTrendRow st.city_temps item]⟩ :=
  rfl

/-- Helper: the rows the trend loop emits over a list of items, starting from
a given temperature map. -/
def rowsFrom (m : String → List ℚ) : List ExportItem → List TrendRow
  | [] => []
  | it :: rest => mkTrendRow m it :: rowsFrom (trendMapUpd m it) rest

theorem rowsFrom_length (l : List ExportItem) :
    ∀ m : String → List ℚ, (rowsFrom m l).length = l.length := by
  induction l with
  | nil => intro m; rfl
  | cons it rest ih => intro m; simp [rowsFrom, ih]

theorem trend_fold_rows (l : List ExportItem) :
    ∀ st : TrendState,
      (l.foldl trendStep st).trend_data = st.trend_data ++ rowsFrom st.city_temps l := by
  induction l with
  | nil => intro st; simp [rowsFrom]
  | cons it rest ih =>
    intro st
    rw [List.foldl_cons, ih, trendStep_eq]
    simp [rowsFrom]

theorem create_eq_rowsFrom (items : List ExportItem) :
    create_trend_analysis_export items = rowsFrom (fun _ => []) (sortByTimestamp items) := by
  unfold create_trend_analysis_export
  rw [trend_fold_rows]
  rfl

theorem trendTempsOf_cons (it : ExportItem) (l : List ExportItem) (c : String) :
    trendTempsOf (it :: l) c
      = if trendKey it = c then it.temperature_celsius.getD 0 :: trendTempsOf l c
        else trendTempsOf l c := by
  unfold trendTempsOf
  by_cases h : trendKey it = c <;> simp [List.filter_cons, h]

theorem trendMapUpd_temps (m : String → List ℚ) (it : ExportItem) (l : List ExportItem)
    (c : String) :
    trendMapUpd m it c ++ trendTempsOf l c = m c ++ trendTempsOf (it :: l) c := by
  rw [trendTempsOf_cons]
  unfold trendMapUpd
  by_cases h : trendKey it = c
  · rw [if_pos h.symm, if_pos h, h]
    simp
  · rw [if_neg (fun hc => h hc.symm), if_neg h]

theorem rowsFrom_getElem (l : List ExportItem) :
    ∀ (m : String → List ℚ) (i : ℕ),
      (rowsFrom m l)[i]?
        = (l[i]?).map fun it => mkTrendRow (fun c => m c ++ trendTempsOf (l.take i) c) it := by
  induction l with
  | nil => intro m i; simp [rowsFrom]
  | cons it rest ih =>
    intro m i
    cases i with
    | zero =>
      simp [rowsFrom, trendTempsOf]
    | succ i =>
      rw [rowsFrom]
      rw [List.getElem?_cons_succ, List.getElem?_cons_succ, ih]
      have hfun : (fun c => trendMapUpd m it c ++ trendTempsOf (rest.take i) c)
          = fun c => m c ++ trendTempsOf ((it :: rest).take (i + 1)) c := by
        funext c
        rw [trendMapUpd_temps, List.take_succ_cons]
      rw [hfun]

theorem trendTempsOf_append (l1 l2 : List ExportItem) (c : String) :
    trendTempsOf (l1 ++ l2) c = trendTempsOf l1 c ++ trendTempsOf l2 c := by
  unfold trendTempsOf
  simp [List.filter_append]

theorem trendTempsOf_take_succ (l : List ExportItem) (i : ℕ) (hi : i < l.length) :
    trendTempsOf (l.take (i + 1)) (trendKey (l.get ⟨i, hi⟩))
      = trendTempsOf (l.take i) (trendKey (l.get ⟨i, hi⟩))
        ++ [(l.get ⟨i, hi⟩).temperature_celsius.getD 0] := by
  rw [List.take_succ, List.getElem?_eq_getElem hi]
  rw [trendTempsOf_append]
  simp [trendTempsOf]

/-- The batch of four observations with temperatures 10, 14, 16 and 20 in
ascending timestamp order. -/
def demoTrendItems : List ExportItem :=
  [demoItem "2024-08-07T00" 10, demoItem "2024-08-07T01" 14,
    demoItem "2024-08-07T02" 16, demoItem "2024-08-07T03" 20]

/-- Claim C6: the trend export emits one row per item of the batch sorted by
timestamp ascending; the row of position i carries the city and instantaneous
temperature of its item, and its moving average is the one-decimal rounding
of the mean of the trailing at-most-three temperatures of that city within
the sorted prefix ending at the item (averaging over however many exist);
on one city with sequential temperatures 10, 14, 16, 20 the emitted averages
are 10.0, 12.0, 13.3, 16.7. -/
theorem claim_C6 :
    (∀ items : List ExportItem,
      (create_trend_analysis_export items).length = (sortByTimestamp items).length)
    ∧ (∀ (items : List ExportItem) (i : ℕ)
        (hi : i < (create_trend_analysis_export items).length)
        (hs : i < (sortByTimestamp items).length),
        ((create_trend_analysis_export items).get ⟨i, hi⟩).city
            = trendKey ((sortByTimestamp items).get ⟨i, hs⟩)
          ∧ ((create_trend_analysis_export items).get ⟨i, hi⟩).temperature
            = ((sortByTimestamp items).get ⟨i, hs⟩).temperature_celsius.getD 0
          ∧ ((create_trend_analysis_export items).get ⟨i, hi⟩).temp_trend_3pt
            = round1 ((lastN 3 (trendTempsOf ((sortByTimestamp items).take (i + 1))
                  (trendKey ((sortByTimestamp items).get ⟨i, hs⟩)))).sum
                / ((min 3 (trendTempsOf ((sortByTimestamp items).take (i + 1))
                    (trendKey ((sortByTimestamp items).get ⟨i, hs⟩))).length : ℕ) : ℚ)))
    ∧ (create_trend_analysis_export demoTrendItems).map (fun r => r.temp_trend_3pt)
        = [10, 12, 13.3, 16.7] := by
  refine ⟨?_, ?_, ?_⟩
  · intro items
    rw [create_eq_rowsFrom, rowsFrom_length]
  · intro items i hi hs
    have key : (create_trend_analysis_export items)[i]?
        = some (mkTrendRow (fun c => trendTempsOf ((sortByTimestamp items).take i) c)
            ((sortByTimestamp items).get ⟨i, hs⟩)) := by
      rw [create_eq_rowsFrom, rowsFrom_getElem, List.getElem?_eq_getElem hs]
      simp
    have hgetmem : (create_trend_analysis_export items)[i]?
        = some ((create_trend_analysis_export items).get ⟨i, hi⟩) := by
      rw [List.getElem?_eq_getElem hi]
      simp
    have hget : (create_trend_analysis_export items).get ⟨i, hi⟩
        = mkTrendRow (fun c => trendTempsOf ((sortByTimestamp items).take i) c)
            ((sortByTimestamp items).get ⟨i, hs⟩) :=
      Option.some.inj (hgetmem.symm.trans key)
    rw [hget]
    refine ⟨rfl, rfl, ?_⟩
    rw [trendTempsOf_take_succ (sortByTimestamp items) i hs]
    rfl
  · have hsorted : sortByTimestamp demoTrendItems = demoTrendItems := by
      unfold sortByTimestamp
      apply List.mergeSort_of_sorted
      simp [demoTrendItems, demoItem]
      decide
    rw [create_eq_rowsFrom, hsorted]
    simp only [demoTrendItems, demoItem, rowsFrom, trendMapUpd, mkTrendRow, trendKey, lastN,
      Option.getD, List.map_cons, List.map_nil]
    norm_num [round1, bround, Int.fract]

/-- Claim C6, witness: at position zero of the four-point batch the emitted
moving average is the rounding of the trailing-window mean of the prefix. -/
theorem claim_C6_witness :
    ∃ (hi : 0 < (create_trend_analysis_export demoTrendItems).length)
      (hs : 0 < (sortByTimestamp demoTrendItems).length),
      ((create_trend_analysis_export demoTrendItems).get ⟨0, hi⟩).temp_trend_3pt
        = round1 ((lastN 3 (trendTempsOf ((sortByTimestamp demoTrendItems).take 1)
            (trendKey ((sortByTimestamp demoTrendItems).get ⟨0, hs⟩)))).sum
          / ((min 3 (trendTempsOf ((sortByTimestamp demoTrendItems).take 1)
              (trendKey ((sortByTimestamp demoTrendItems).get ⟨0, hs⟩))).length : ℕ) : ℚ)) := by
  have hs : 0 < (sortByTimestamp demoTrendItems).length := by
    simp [sortByTimestamp, demoTrendItems]
  have hi : 0 < (create_trend_analysis_export demoTrendItems).length := by
    rw [claim_C6.1]
    exact hs
  exact ⟨hi, hs, (claim_C6.2.1 demoTrendItems 0 hi hs).2.2⟩

/-- Helper: the effect of a batch suffix on the summary counters is additive
in the starting state: each field of the final summary is the starting field
plus the contribution of the suffix computed from the empty summary. -/
theorem handler_shift (history : String → List ℚ) (ys : List WeatherMsg) :
    ∀ s : Summary,
      (ys.foldl (handler_step history) s).processed_records
          = s.processed_records
            + (ys.foldl (handler_step history) ⟨0, 0, 0, []⟩).processed_records
        ∧ (ys.foldl (handler_step history) s).failed_records
          = s.failed_records + (ys.foldl (handler_step history) ⟨0, 0, 0, []⟩).failed_records
        ∧ (ys.foldl (handler_step history) s).stored
          = s.stored ++ (ys.foldl (handler_step history) ⟨0, 0, 0, []⟩).stored := by
  induction ys with
  | nil => intro s; simp
  | cons y rest ih =>
    intro s
    rw [List.foldl_cons, List.foldl_cons]
    obtain ⟨ih1, ih2, ih3⟩ := ih (handler_step history s y)
    obtain ⟨jh1, jh2, jh3⟩ := ih (handler_step history ⟨0, 0, 0, []⟩ y)
    cases hproc : process_and_enrich_weather_data history y with
    | ok p =>
      have hp : ∀ t : Summary, (handler_step history t y).processed_records
            = t.processed_records + 1
          ∧ (handler_step history t y).failed_records = t.failed_records
          ∧ (handler_step history t y).stored = t.stored ++ [p] := by
        intro t
        simp [handler_step, hproc]
      refine ⟨?_, ?_, ?_⟩
      · simp only [ih1, jh1, (hp s).1, (hp ⟨0, 0, 0, []⟩).1]
        omega
      · simp only [ih2, jh2, (hp s).2.1, (hp ⟨0, 0, 0, []⟩).2.1]
        omega
      · simp only [ih3, jh3, (hp s).2.2, (hp ⟨0, 0, 0, []⟩).2.2]
        simp
    | error err =>
      have hp : ∀ t : Summary, (handler_step history t y).processed_records
            = t.processed_records
          ∧ (handler_step history t y).failed_records = t.failed_records + 1
          ∧ (handler_step history t y).stored = t.stored := by
        intro t
        simp [handler_step, hproc]
      refine ⟨?_, ?_, ?_⟩
      · simp only [ih1, jh1, (hp s).1, (hp ⟨0, 0, 0, []⟩).1]
        omega
      · simp only [ih2, jh2, (hp s).2.1, (hp ⟨0, 0, 0, []⟩).2.1]
        omega
      · simp only [ih3, jh3, (hp s).2.2, (hp ⟨0, 0, 0, []⟩).2.2]
        simp

/-- Claim C9: one record that fails enrichment, placed anywhere in a batch,
increments the batch failure counter by exactly one, is skipped (stores
nothing), and leaves the processed count and the stored outputs of every
other record unchanged; the handler is a total function, so the batch never
aborts. -/
theorem claim_C9 (history : String → List ℚ) (xs ys : List WeatherMsg) (r : WeatherMsg)
    (e : String) (hr : process_and_enrich_weather_data history r = Except.error e) :
    (lambda_handler history (xs ++ r :: ys)).failed_records
        = (lambda_handler history (xs ++ ys)).failed_records + 1
      ∧ (lambda_handler history (xs ++ r :: ys)).processed_records
        = (lambda_handler history (xs ++ ys)).processed_records
      ∧ (lambda_handler history (xs ++ r :: ys)).stored
        = (lambda_handler history (xs ++ ys)).stored := by
  unfold lambda_handler
  rw [List.foldl_append, List.foldl_append, List.foldl_cons]
  have hstep : handler_step history (xs.foldl (handler_step history) ⟨0, 0, 0, []⟩) r
      = { xs.foldl (handler_step history) ⟨0, 0, 0, []⟩ with
          failed_records := (xs.foldl (handler_step history) ⟨0, 0, 0, []⟩).failed_records
            + 1 } := by
    simp [handler_step, hr]
  rw [hstep]
  obtain ⟨h1, h2, h3⟩ := handler_shift history ys
    { xs.foldl (handler_step history) ⟨0, 0, 0, []⟩ with
      failed_records := (xs.foldl (handler_step history) ⟨0, 0, 0, []⟩).failed_records + 1 }
  obtain ⟨j1, j2, j3⟩ := handler_shift history ys (xs.foldl (handler_step history) ⟨0, 0, 0, []⟩)
  refine ⟨?_, ?_, ?_⟩
  · simp only [h2, j2]
    omega
  · simp only [h1, j1]
  · simp only [h3, j3]

/-- A well-formed decoded stream record with the given temperature. -/
def goodMsg (t : ℚ) : WeatherMsg :=
  { city := some "Estevan"
    timestamp := some "2024-08-07T00"
    temperature_celsius := some t
    humidity_percent := some 50
    wind_speed_kmh := some 10
    pressure_hpa := some 1013
    visibility_km := some 10
    alert_flags := [] }

/-- Claim C9, witness: in the three-record batch whose middle record misses
the temperature field, exactly one failure is counted and the processed count
and stored outputs match the two-record batch without it. -/
theorem claim_C9_witness :
    (lambda_handler (fun _ => []) [goodMsg 20, noTempMsg, goodMsg 25]).failed_records
        = (lambda_handler (fun _ => []) [goodMsg 20, goodMsg 25]).failed_records + 1
      ∧ (lambda_handler (fun _ => []) [goodMsg 20, noTempMsg, goodMsg 25]).processed_records
        = (lambda_handler (fun _ => []) [goodMsg 20, goodMsg 25]).processed_records
      ∧ (lambda_handler (fun _ => []) [goodMsg 20, noTempMsg, goodMsg 25]).stored
        = (lambda_handler (fun _ => []) [goodMsg 20, goodMsg 25]).stored :=
  claim_C9 (fun _ => []) [goodMsg 20] [goodMsg 25] noTempMsg "KeyError: temperature_celsius"
    (by simp [process_and_enrich_weather_data, getField, Except.instMonad, Except.bind,
      noTempMsg])

end Claims
